import Mathlib

set_option maxRecDepth 4000

/-!
Verification development for the Open3D headless rendering excerpt:
`src/Apps/Open3DHeadless/Open3DHeadless.cpp` and `src/IO/TriangleMeshIO.cpp`.

The C++ code is shallowly embedded: pure computations become Lean
functions, the mutable global material state becomes explicit state
passing, the asynchronous render/readback interplay becomes a small-step
transition relation, and external collaborators that are not part of the
given sources (the Filament renderer, the Open3D geometry member
functions, libm trigonometry) are modelled as explicit parameters or as
definitions derived from the specification, each marked as such.

Scalar quantities are modelled over `Rat`; every claim about them is an
assignment or comparison, never float arithmetic, so exact rationals are
faithful.
-/

/-- Texture handles are opaque identifiers handed out by the resource
manager; we model them as natural numbers. -/
abbrev TextureHandle := Nat

/-- Handle values of the process-wide default texture and default normal
map (`FilamentResourceManager::kDefaultTexture` / `kDefaultNormalMap`);
the concrete values are irrelevant, only their role as defaults. -/
def kDefaultTexture : TextureHandle := 0

def kDefaultNormalMap : TextureHandle := 1

/-- An image as used by the material maps.  Only presence of data matters
to the headless app (`map->HasData()`), so we keep the payload abstract
as a list of bytes. -/
structure HImage where
  data : List Nat
deriving DecidableEq, Repr

/-- Embeds `geometry::Image::HasData` as used through `is_map_valid`. -/
def HImage.hasData (i : HImage) : Bool :=
  !i.data.isEmpty

/-- A named mesh material, mirroring the fields of
`geometry::TriangleMesh::Material` that `PrepareGeometry` touches, plus
the authored metallic scalar (present in the library's material struct
but never read by `PrepareGeometry`). -/
structure MeshMaterial where
  baseColor : Rat × Rat × Rat
  baseMetallic : Rat
  baseRoughness : Rat
  baseReflectance : Rat
  baseClearCoat : Rat
  baseClearCoatRoughness : Rat
  baseAnisotropy : Rat
  albedo : Option HImage
  normalMap : Option HImage
  ambientOcclusion : Option HImage
  roughness : Option HImage
  metallic : Option HImage
  reflectance : Option HImage
  clearCoat : Option HImage
  clearCoatRoughness : Option HImage
  anisotropy : Option HImage
deriving DecidableEq, Repr

/-- Embeds `geometry::TriangleMesh` with the fields the headless app
reads or writes.  `materials` models the name-keyed material map; the
code only asks whether it is non-empty and takes `begin()->second`,
which we model as the head of the list. -/
structure TriangleMesh where
  vertices : List (Rat × Rat × Rat)
  vertex_normals : List (Rat × Rat × Rat)
  vertex_colors : List (Rat × Rat × Rat)
  triangles : List (Nat × Nat × Nat)
  triangle_uvs : List (Rat × Rat)
  materials : List (String × MeshMaterial)
deriving DecidableEq, Repr

/-- Embeds `geometry::PointCloud` with the fields the headless app
touches. -/
structure PointCloud where
  points : List (Rat × Rat × Rat)
  normals : List (Rat × Rat × Rat)
  colors : List (Rat × Rat × Rat)
deriving DecidableEq, Repr

/-- The two geometry variants the headless pipeline produces
(`GetGeometryType()` dispatch). -/
inductive Geometry3D where
  | triangleMesh (m : TriangleMesh)
  | pointCloud (p : PointCloud)
deriving DecidableEq, Repr

/-- Embeds the `TextureMaps` struct of Open3DHeadless.cpp: nine named
slots, each initialised to the process-wide default handle. -/
structure TextureMaps where
  albedo_map : TextureHandle := kDefaultTexture
  normal_map : TextureHandle := kDefaultNormalMap
  ambient_occlusion_map : TextureHandle := kDefaultTexture
  roughness_map : TextureHandle := kDefaultTexture
  metallic_map : TextureHandle := kDefaultTexture
  reflectance_map : TextureHandle := kDefaultTexture
  clear_coat_map : TextureHandle := kDefaultTexture
  clear_coat_roughness_map : TextureHandle := kDefaultTexture
  anisotropy_map : TextureHandle := kDefaultTexture
deriving DecidableEq, Repr

/-- Embeds the `MaterialProperties` struct of Open3DHeadless.cpp with its
startup defaults. -/
structure MaterialProperties where
  base_color : Rat × Rat × Rat := (9/10, 9/10, 9/10)
  metallic : Rat := 0
  roughness : Rat := 7/10
  reflectance : Rat := 1/2
  clear_coat : Rat := 1/5
  clear_coat_roughness : Rat := 1/5
  anisotropy : Rat := 0
  point_size : Rat := 5
deriving DecidableEq, Repr

/-- The portion of the global `materials_` singleton that
`PrepareGeometry` can mutate: its scalar properties and texture maps
(the two material-instance handles are never touched by it). -/
structure HeadlessMaterials where
  properties : MaterialProperties
  maps : TextureMaps
deriving DecidableEq, Repr

/-- Modelled from the spec: the rendering-engine collaborator consumed by
the Material/Texture Binder.  The only operation used is `AddTexture`,
which uploads an image and returns a handle; the engine itself is not
part of the given sources, so it is modelled as a fixed mapping from
images to handles. -/
structure Renderer where
  addTexture : HImage → TextureHandle

/-- Embeds the `is_map_valid` lambda of `PrepareGeometry`: a map is valid
when the image pointer is non-null and the image has data. -/
def isMapValid : Option HImage → Bool
  | some i => i.hasData
  | none => false

/-- One texture-slot update of `PrepareGeometry`: when the source map is
valid, upload it and replace the slot, else keep the previous handle. -/
def updateSlot (r : Renderer) (m : Option HImage) (old : TextureHandle) :
    TextureHandle :=
  match m with
  | some i => if i.hasData then r.addTexture i else old
  | none => old

/-- Embeds `PrepareGeometry` of Open3DHeadless.cpp as a state transformer
on the global material state.  Point clouds (and meshes with no named
material) leave the state untouched; otherwise the first material's
scalars are copied, each valid texture map is uploaded and recorded, and
the metallic scalar is forced to 1 or 0 by the validity of the metallic
map. -/
def PrepareGeometry (geom : Geometry3D) (renderer : Renderer)
    (st : HeadlessMaterials) : HeadlessMaterials :=
  match geom with
  | .pointCloud _ => st
  | .triangleMesh mesh =>
    match mesh.materials with
    | [] => st
    | (_, mat) :: _ =>
      { properties :=
          { st.properties with
            base_color := mat.baseColor
            roughness := mat.baseRoughness
            reflectance := mat.baseReflectance
            clear_coat := mat.baseClearCoat
            clear_coat_roughness := mat.baseClearCoatRoughness
            anisotropy := mat.baseAnisotropy
            metallic := if isMapValid mat.metallic then 1 else 0 }
        maps :=
          { albedo_map := updateSlot renderer mat.albedo st.maps.albedo_map
            normal_map := updateSlot renderer mat.normalMap st.maps.normal_map
            ambient_occlusion_map :=
              updateSlot renderer mat.ambientOcclusion
                st.maps.ambient_occlusion_map
            roughness_map :=
              updateSlot renderer mat.roughness st.maps.roughness_map
            metallic_map :=
              updateSlot renderer mat.metallic st.maps.metallic_map
            reflectance_map :=
              updateSlot renderer mat.reflectance st.maps.reflectance_map
            clear_coat_map :=
              updateSlot renderer mat.clearCoat st.maps.clear_coat_map
            clear_coat_roughness_map :=
              updateSlot renderer mat.clearCoatRoughness
                st.maps.clear_coat_roughness_map
            anisotropy_map :=
              updateSlot renderer mat.anisotropy st.maps.anisotropy_map } }

/-! Geometry loading (`LoadGeometry`). -/

/-- Outcome of an external parser invocation, as seen through the
`try { ... } catch (...) { success = false; }` wrappers in
`LoadGeometry`: a successful parse with a populated object, a parse that
returned false, or a thrown exception (caught and turned into false). -/
inductive ParseOutcome (α : Type) where
  | ok (value : α)
  | failed
  | threw
deriving DecidableEq, Repr

/-- The content of an input path as the loader's collaborators report it:
whether `ReadFileGeometryType` flags `CONTAINS_TRIANGLES`, and what
`ReadTriangleMesh` / `ReadPointCloud` would produce on it. -/
structure FileContent where
  containsTriangles : Bool
  meshParse : ParseOutcome TriangleMesh
  cloudParse : ParseOutcome PointCloud

/-- Faults of the embedded C++: dereferencing a null `shared_ptr`. -/
inductive Fault where
  | nullDeref
deriving DecidableEq, Repr

/-- Modelled from the spec: `TriangleMesh::ComputeVertexNormals` of the
library (not part of the given sources) computes one normal per vertex;
only the count matters to the claims, so the normal values are kept
abstract as a fixed unit vector per vertex. -/
def computeVertexNormals (m : TriangleMesh) : TriangleMesh :=
  { m with vertex_normals := m.vertices.map fun _ => (0, 0, 1) }

/-- Modelled from the spec: `TriangleMesh::PaintUniformColor` of the
library (not part of the given sources) assigns the given color to every
vertex. -/
def paintUniformColor (m : TriangleMesh) (c : Rat × Rat × Rat) :
    TriangleMesh :=
  { m with vertex_colors := m.vertices.map fun _ => c }

/-- Modelled from the spec: `TriangleMesh::HasTriangleUvs` of the library
(not part of the given sources) holds when there are triangles and one
UV per triangle vertex, three per triangle. -/
def hasTriangleUvs (m : TriangleMesh) : Bool :=
  decide (0 < m.triangles.length) &&
    decide (m.triangle_uvs.length = 3 * m.triangles.length)

/-- Modelled from the spec: `PointCloud::HasNormals` of the library (not
part of the given sources): one normal per point and at least one
point. -/
def pcHasNormals (p : PointCloud) : Bool :=
  decide (0 < p.points.length) &&
    decide (p.normals.length = p.points.length)

/-- Modelled from the spec: `PointCloud::EstimateNormals` of the library
(not part of the given sources) produces one estimated normal per point;
the values are kept abstract as a fixed vector per point. -/
def estimateNormals (p : PointCloud) : PointCloud :=
  { p with normals := p.points.map fun _ => (0, 0, 1) }

/-- Modelled from the spec: `PointCloud::NormalizeNormals` of the library
(not part of the given sources) rescales each normal to unit length; the
claims only depend on the count, which is preserved, so the rescaling is
kept abstract as the identity on each normal. -/
def normalizeNormals (p : PointCloud) : PointCloud :=
  { p with normals := p.normals.map fun n => n }

/-- The point-cloud fallback path of `LoadGeometry` (the second half of
the function): parse, estimate normals when absent, normalize, or give
up with `none`. -/
def loadPointCloudPath (f : FileContent) : Option Geometry3D :=
  match f.cloudParse with
  | .ok cloud =>
    let cloud := if !pcHasNormals cloud then estimateNormals cloud else cloud
    let cloud := normalizeNormals cloud
    some (.pointCloud cloud)
  | _ => none

/-- The sequence of in-place mutations the mesh branch of `LoadGeometry`
applies to a successfully parsed non-empty mesh: compute vertex normals,
paint uniform white when colors are absent, synthesize one zero UV per
triangle vertex when per-triangle UVs are absent.  (In the source the
UV fix-up runs after `geometry = mesh`, but it mutates the very object
`geometry` aliases, so the returned mesh carries it.) -/
def fixupMesh (parsed : TriangleMesh) : TriangleMesh :=
  let m := computeVertexNormals parsed
  let m := if m.vertex_colors.isEmpty
    then paintUniformColor m (1, 1, 1) else m
  if !hasTriangleUvs m
    then { m with
      triangle_uvs := List.replicate (3 * m.triangles.length) (0, 0) }
    else m

/-- Embeds `LoadGeometry` of Open3DHeadless.cpp.  The mesh branch runs
when the file reports triangles and the mesh parse succeeds.  With zero
triangles the code resets the mesh shared pointer and then evaluates
`mesh->HasTriangleUvs()` on the now-null pointer, which this embedding
surfaces as `Fault.nullDeref`.  With a non-empty triangle list the mesh
undergoes `fixupMesh`.  Otherwise the point-cloud path decides the
result. -/
def LoadGeometry (f : FileContent) : Except Fault (Option Geometry3D) :=
  match (if f.containsTriangles then f.meshParse else .failed :
      ParseOutcome TriangleMesh) with
  | .ok parsed =>
    if parsed.triangles.length = 0 then
      Except.error Fault.nullDeref
    else
      Except.ok (some (.triangleMesh (fixupMesh parsed)))
  | _ => Except.ok (loadPointCloudPath f)

/-! Pixel readback callback and the snapshot wait loop. -/

/-- Embeds the `RenderRequest` struct: the per-capture completion flag
and output filename. -/
structure RenderRequest where
  frame_done : Bool := false
  output_filename : String
deriving DecidableEq, Repr

/-- Observable actions the readback callback performs, in program
order. -/
inductive CbAction where
  | setFrameDone
  | logInfo
  | writeImage
  | logWarning
  | logError
deriving DecidableEq, Repr

/-- One run of the callback: the mutated request, the trace of actions in
the order the code performs them, and whether an exception escaped the
callback. -/
structure CallbackRun where
  request : RenderRequest
  actions : List CbAction
  thrown : Bool
deriving DecidableEq, Repr

/-- Embeds `ReadPixelsCallback` of Open3DHeadless.cpp.  The request's
`frame_done` is set first.  With a filename and a non-zero buffer an
image is built and written (`writeOk` stands for the external
`io::WriteImage` result; a failed write only logs a warning).  Otherwise
the code calls `utility::LogError`, which raises an exception — the
given sources state this themselves in the comment at
Open3DHeadless.cpp:84-85 ("LogError throws an exception") — so the error
branch ends with `thrown := true`. -/
def ReadPixelsCallback (bufferSize : Nat) (writeOk : Bool)
    (rr : RenderRequest) : CallbackRun :=
  let rr := { rr with frame_done := true }
  let rest : List CbAction × Bool :=
    if !rr.output_filename.isEmpty && decide (0 < bufferSize) then
      if writeOk then ([.logInfo, .writeImage], false)
      else ([.logInfo, .writeImage, .logWarning], false)
    else ([.logError], true)
  { request := rr, actions := .setFrameDone :: rest.1, thrown := rest.2 }

/-- Program counter of the `RenderSnapshot` caller thread: about to
attempt `beginFrame`, in the poll loop after `endFrame`, or done (buffer
freed, call returned). -/
inductive SnapPc where
  | atBegin
  | waiting
  | done
deriving DecidableEq, Repr

/-- Joint state of one `RenderSnapshot` call and its environment: the
caller's program counter, whether the readback was issued
(`read_pixels_started`), whether the engine's completion callback has
fired, the `RenderRequest`, and whether the buffer was freed / the call
returned. -/
structure SnapState where
  pc : SnapPc
  readPixelsStarted : Bool
  callbackFired : Bool
  request : RenderRequest
  bufferFreed : Bool
  returned : Bool
deriving DecidableEq, Repr

/-- The state of `RenderSnapshot` right after the buffer allocation and
request setup. -/
def snapInit (filename : String) : SnapState :=
  { pc := .atBegin
    readPixelsStarted := false
    callbackFired := false
    request := { frame_done := false, output_filename := filename }
    bufferFreed := false
    returned := false }

/-- Effect of the engine firing the completion callback: the callback
runs on the request (its first action sets `frame_done`), and the fact
that it fired is recorded. -/
def fireCallback (bufferSize : Nat) (writeOk : Bool) (s : SnapState) :
    SnapState :=
  { s with
    callbackFired := true
    request := (ReadPixelsCallback bufferSize writeOk s.request).request }

/-- Small-step transition relation for one `RenderSnapshot` call
interleaved with the engine's asynchronous callback.  `beginOk` is
`beginFrame` succeeding: render, issue the readback, end the frame,
enter the poll loop.  `beginFail` is `beginFrame` declining: no readback
is issued, the frame still ends and the poll loop is entered.
`callback` is the engine invoking `ReadPixelsCallback`, possible only
once and only after the readback was issued.  `waitExit` is the poll
loop observing `frame_done`, after which the buffer is freed and the
call returns. -/
inductive SnapStep : SnapState → SnapState → Prop where
  | beginOk (s : SnapState) (h : s.pc = .atBegin) :
      SnapStep s { s with pc := .waiting, readPixelsStarted := true }
  | beginFail (s : SnapState) (h : s.pc = .atBegin) :
      SnapStep s { s with pc := .waiting }
  | callback (s : SnapState) (bufferSize : Nat) (writeOk : Bool)
      (hIssued : s.readPixelsStarted = true)
      (hOnce : s.callbackFired = false) :
      SnapStep s (fireCallback bufferSize writeOk s)
  | waitExit (s : SnapState) (hpc : s.pc = .waiting)
      (hdone : s.request.frame_done = true) :
      SnapStep s { s with pc := .done, bufferFreed := true, returned := true }

/-- States reachable by a `RenderSnapshot` call on `filename`. -/
def SnapReach (filename : String) (s : SnapState) : Prop :=
  Relation.ReflTransGen SnapStep (snapInit filename) s

/-! Triangle-mesh IO dispatch (`TriangleMeshIO.cpp`). -/

/-- Result of one mesh read/write dispatch: the returned boolean, whether
a warning was printed, and whether the dispatch raised. -/
structure MeshIOResult where
  result : Bool
  warned : Bool
  thrown : Bool
deriving DecidableEq, Repr

/-- Characters after the last dot of the list, or `none` when the list
has no dot. -/
def afterLastDot : List Char → Option (List Char)
  | [] => none
  | c :: rest =>
    match afterLastDot rest with
    | some e => some e
    | none => if c = '.' then some rest else none

/-- Modelled from the spec: `IOHelper::GetFileExtensionInLowerCase` (not
part of the given sources) returns the lowercased text after the last
dot of the filename, and the empty string when the filename has no
dot. -/
def GetFileExtensionInLowerCase (filename : String) : String :=
  match afterLastDot filename.data with
  | none => ""
  | some e => String.mk (e.map Char.toLower)

/-- Embeds `file_extension_to_trianglemesh_read_function`: the dispatch
table maps the single registered extension "ply" to the external PLY
reader, which is a parameter of the embedding. -/
def readFunctionTable (plyRead : String → MeshIOResult) :
    List (String × (String → MeshIOResult)) :=
  [("ply", plyRead)]

/-- Embeds `file_extension_to_trianglemesh_write_function` the same
way. -/
def writeFunctionTable (plyWrite : String → Bool → Bool → MeshIOResult) :
    List (String × (String → Bool → Bool → MeshIOResult)) :=
  [("ply", plyWrite)]

/-- Embeds `ReadTriangleMesh` of TriangleMeshIO.cpp: empty extension or
extension not in the table prints a warning and returns false from the
dispatch layer itself; otherwise the registered handler decides. -/
def ReadTriangleMesh (plyRead : String → MeshIOResult)
    (filename : String) : MeshIOResult :=
  let ext := GetFileExtensionInLowerCase filename
  if ext.isEmpty then
    { result := false, warned := true, thrown := false }
  else
    match (readFunctionTable plyRead).lookup ext with
    | none => { result := false, warned := true, thrown := false }
    | some handler => handler filename

/-- Embeds `WriteTriangleMesh` of TriangleMeshIO.cpp with the same
dispatch structure (the mesh argument is absorbed into the handler). -/
def WriteTriangleMesh (plyWrite : String → Bool → Bool → MeshIOResult)
    (filename : String) (writeAscii compressed : Bool) : MeshIOResult :=
  let ext := GetFileExtensionInLowerCase filename
  if ext.isEmpty then
    { result := false, warned := true, thrown := false }
  else
    match (writeFunctionTable plyWrite).lookup ext with
    | none => { result := false, warned := true, thrown := false }
    | some handler => handler filename writeAscii compressed

/-! Orbit loop of `main`. -/

/-- Zero-pads the decimal rendering of `i` to five characters, as the
format string of the orbit loop does. -/
def pad5 (i : Nat) : String :=
  let s := toString i
  String.mk (List.replicate (5 - s.length) '0') ++ s

/-- The filename the orbit loop passes to `RenderSnapshot` for frame
`i`. -/
def orbitFilename (i : Nat) : String :=
  "headless_out/out_" ++ pad5 i ++ ".png"

/-- What one orbit iteration does before calling `RenderSnapshot`: the
eye it computes, the look-at target and up vector it passes to
`LookAt`, and the filename it renders to. -/
structure OrbitFrame (K : Type) where
  eye : K × K × K
  lookTarget : K × K × K
  up : K × K × K
  filename : String

/-- Embeds the body of the orbit loop of `main` for frame `i`, over an
arbitrary field with the trigonometric functions and pi as parameters
(the code calls libm `sin` / `cos` and `M_PI`, external to the given
sources): `deg_rad = i * pi / 180`, `dx = sin(deg_rad) * radius`,
`dz = cos(deg_rad) * radius`, `dy = sin(deg_rad * 2) * 2`, eye at
center plus the offsets, look-at center, up as passed down. -/
def orbitFrame {K : Type} [Field K] (sine cosine : K → K) (pi : K)
    (center : K × K × K) (radius : K) (up : K × K × K) (i : Nat) :
    OrbitFrame K :=
  let degRad : K := (i : K) * pi / 180
  let dx := sine degRad * radius
  let dz := cosine degRad * radius
  let dy := sine (degRad * 2) * 2
  { eye := (center.1 + dx, center.2.1 + dy, center.2.2 + dz)
    lookTarget := center
    up := up
    filename := orbitFilename i }

/-- Embeds the whole orbit loop: 360 sequential iterations, `i` from 0
to 359, with the fixed up vector (0, 1, 0) established before the
loop. -/
def orbitLoop {K : Type} [Field K] (sine cosine : K → K) (pi : K)
    (center : K × K × K) (radius : K) : List (OrbitFrame K) :=
  (List.range 360).map (orbitFrame sine cosine pi center radius (0, 1, 0))

/-- Lexicographic strict order on character lists, by code point. -/
def listCharLtB : List Char → List Char → Bool
  | [], [] => false
  | [], _ :: _ => true
  | _ :: _, [] => false
  | a :: as, b :: bs =>
    if a.toNat < b.toNat then true
    else if b.toNat < a.toNat then false
    else listCharLtB as bs

/-- Lexicographic strict order on strings, by code point. -/
def strLtB (a b : String) : Bool :=
  listCharLtB a.data b.data

/-- Whether each adjacent pair of the list is strictly increasing under
`strLtB`. -/
def chainLtB : List String → Bool
  | [] => true
  | [_] => true
  | a :: b :: rest => strLtB a b && chainLtB (b :: rest)

/-! Concrete sample inputs used to exercise the theorems. -/

/-- A parsed mesh with one triangle and no normals, colors or UVs. -/
def sampleParsedMesh : TriangleMesh :=
  { vertices := [(0, 0, 0), (1, 0, 0), (0, 1, 0)]
    vertex_normals := []
    vertex_colors := []
    triangles := [(0, 1, 2)]
    triangle_uvs := []
    materials := [] }

/-- A file whose content parses as `sampleParsedMesh`. -/
def sampleMeshFile : FileContent :=
  { containsTriangles := true
    meshParse := .ok sampleParsedMesh
    cloudParse := .failed }

/-- A file whose content parses as a mesh with zero triangles (and would
parse as a point cloud). -/
def sampleZeroTriangleFile : FileContent :=
  { containsTriangles := true
    meshParse := .ok
      { vertices := [(0, 0, 0)]
        vertex_normals := []
        vertex_colors := []
        triangles := []
        triangle_uvs := []
        materials := [] }
    cloudParse := .ok { points := [(0, 0, 0)], normals := [], colors := [] } }

/-- A material whose metallic map is present and non-empty and whose
authored metallic scalar is not 1. -/
def sampleMetallicMaterial : MeshMaterial :=
  { baseColor := (1/2, 1/4, 1/8)
    baseMetallic := 3/4
    baseRoughness := 1/3
    baseReflectance := 2/5
    baseClearCoat := 1/10
    baseClearCoatRoughness := 1/10
    baseAnisotropy := 0
    albedo := none
    normalMap := none
    ambientOcclusion := none
    roughness := none
    metallic := some { data := [7] }
    reflectance := none
    clearCoat := none
    clearCoatRoughness := none
    anisotropy := none }

/-- A mesh carrying `sampleMetallicMaterial` as its first named
material. -/
def sampleMaterialMesh : TriangleMesh :=
  { sampleParsedMesh with materials := [("m", sampleMetallicMaterial)] }

/-- A renderer double whose texture uploads return handle 42. -/
def sampleRenderer : Renderer := { addTexture := fun _ => 42 }

/-- The global material state at startup. -/
def initialMaterials : HeadlessMaterials :=
  { properties := {}, maps := {} }

/-! Theorems. -/

/-- Applying a slot update twice with the same source map gives the same
handle as applying it once. -/
theorem updateSlot_idem (r : Renderer) (m : Option HImage)
    (old : TextureHandle) :
    updateSlot r m (updateSlot r m old) = updateSlot r m old := by
  cases m with
  | none => rfl
  | some i =>
    by_cases h : i.hasData = true
    · simp [updateSlot, h]
    · simp [updateSlot, h]

/-- C6: invoking `PrepareGeometry` twice in succession on the same mesh
with the same renderer yields the same final material properties and
texture maps as invoking it once: no scalar drifts and every texture
slot holds the same handle. -/
theorem prepareGeometry_idempotent (geom : Geometry3D) (r : Renderer)
    (st : HeadlessMaterials) :
    PrepareGeometry geom r (PrepareGeometry geom r st) =
      PrepareGeometry geom r st := by
  cases geom with
  | pointCloud p => rfl
  | triangleMesh mesh =>
    cases h : mesh.materials with
    | nil => simp [PrepareGeometry, h]
    | cons hd tl =>
      obtain ⟨name, mat⟩ := hd
      simp [PrepareGeometry, h, updateSlot_idem]

/-- C7: for a mesh carrying at least one named material, the global
metallic scalar after `PrepareGeometry` is exactly 1 when the first
material's metallic map is valid and exactly 0 otherwise, whatever the
authored metallic scalar and the prior state were. -/
theorem prepareGeometry_metallic_override (mesh : TriangleMesh)
    (r : Renderer) (st : HeadlessMaterials) (name : String)
    (mat : MeshMaterial) (rest : List (String × MeshMaterial))
    (h : mesh.materials = (name, mat) :: rest) :
    (PrepareGeometry (.triangleMesh mesh) r st).properties.metallic =
      if isMapValid mat.metallic then 1 else 0 := by
  simp [PrepareGeometry, h]

/-- Witness for C7 at a concrete mesh whose metallic map is valid while
its authored metallic scalar is 3/4: the resulting scalar is 1. -/
theorem prepareGeometry_metallic_override_witness :
    (PrepareGeometry (.triangleMesh sampleMaterialMesh) sampleRenderer
        initialMaterials).properties.metallic = 1 := by
  have h := prepareGeometry_metallic_override sampleMaterialMesh
    sampleRenderer initialMaterials "m" sampleMetallicMaterial [] rfl
  simpa [sampleMetallicMaterial, isMapValid, HImage.hasData] using h

/-- C10: a point cloud, or a triangle mesh with no named materials,
passes through `PrepareGeometry` leaving every material property
(metallic included) and every texture slot exactly as before. -/
theorem prepareGeometry_no_materials_no_effect (r : Renderer)
    (st : HeadlessMaterials) :
    (∀ p : PointCloud, PrepareGeometry (.pointCloud p) r st = st) ∧
    (∀ m : TriangleMesh, m.materials = [] →
      PrepareGeometry (.triangleMesh m) r st = st) := by
  refine ⟨fun p => rfl, fun m h => ?_⟩
  simp [PrepareGeometry, h]

/-- Witness for C10 at a concrete material-free mesh and the startup
state. -/
theorem prepareGeometry_no_materials_no_effect_witness :
    PrepareGeometry (.triangleMesh sampleParsedMesh) sampleRenderer
      initialMaterials = initialMaterials :=
  (prepareGeometry_no_materials_no_effect sampleRenderer
    initialMaterials).2 sampleParsedMesh rfl

/-- C8: a filename whose extension is empty or not registered in the
dispatch tables makes `ReadTriangleMesh` and `WriteTriangleMesh` log a
warning and return false, and the dispatch layer itself raises
nothing. -/
theorem meshIO_unknown_extension_returns_false
    (plyRead : String → MeshIOResult)
    (plyWrite : String → Bool → Bool → MeshIOResult)
    (filename : String) (writeAscii compressed : Bool)
    (h : GetFileExtensionInLowerCase filename = "" ∨
      ((readFunctionTable plyRead).lookup
          (GetFileExtensionInLowerCase filename) = none ∧
        (writeFunctionTable plyWrite).lookup
          (GetFileExtensionInLowerCase filename) = none)) :
    ReadTriangleMesh plyRead filename =
        { result := false, warned := true, thrown := false } ∧
      WriteTriangleMesh plyWrite filename writeAscii compressed =
        { result := false, warned := true, thrown := false } := by
  rcases h with h | ⟨h1, h2⟩
  · constructor
    · simp [ReadTriangleMesh, h, String.isEmpty]
    · simp [WriteTriangleMesh, h, String.isEmpty]
  · constructor
    · by_cases hemp : (GetFileExtensionInLowerCase filename).isEmpty
      · simp [ReadTriangleMesh, hemp]
      · simp [ReadTriangleMesh, hemp, h1]
    · by_cases hemp : (GetFileExtensionInLowerCase filename).isEmpty
      · simp [WriteTriangleMesh, hemp]
      · simp [WriteTriangleMesh, hemp, h2]

/-- Witness for C8 at the concrete filename "mesh.obj", whose extension
"obj" is not registered (only "ply" is). -/
theorem meshIO_unknown_extension_returns_false_witness :
    ReadTriangleMesh (fun _ => ⟨true, false, false⟩) "mesh.obj" =
      { result := false, warned := true, thrown := false } ∧
    WriteTriangleMesh (fun _ _ _ => ⟨true, false, false⟩)
      "mesh.obj" true false =
      { result := false, warned := true, thrown := false } :=
  meshIO_unknown_extension_returns_false _ _ "mesh.obj" true false
    (Or.inr ⟨rfl, rfl⟩)

/-- C2, failing input: invoked with an empty output filename and a zero
buffer size, `ReadPixelsCallback` takes the error branch and calls
`utility::LogError`, which raises an exception (as the sources' own
comment at Open3DHeadless.cpp:84-85 records), so the callback does not
return normally — contrary to the claim that it logs and returns
without throwing. -/
theorem readPixelsCallback_error_branch_raises :
    (ReadPixelsCallback 0 true
        { frame_done := false, output_filename := "" }).thrown = true ∧
    (ReadPixelsCallback 0 true
        { frame_done := false, output_filename := "" }).actions =
      [.setFrameDone, .logError] := by
  constructor <;> rfl

/-- C9: every invocation of the readback callback sets the request's
`frame_done` flag to true as its first action, before inspecting the
filename or buffer size and before any write attempt, so the flag is
true after any invocation — including the failed-write and error
branches — and a `callback` transition of the snapshot machine always
leaves `frame_done` true, releasing the wait loop. -/
theorem readPixelsCallback_sets_flag_first (bufferSize : Nat)
    (writeOk : Bool) (rr : RenderRequest) :
    (ReadPixelsCallback bufferSize writeOk rr).request.frame_done = true ∧
    (ReadPixelsCallback bufferSize writeOk rr).actions.head? =
      some CbAction.setFrameDone ∧
    (∀ s : SnapState,
      (fireCallback bufferSize writeOk s).request.frame_done = true) :=
  ⟨rfl, rfl, fun _ => rfl⟩

/-- Invariant of the snapshot machine: the completion flag, the freed
buffer and the returned call each entail that the callback has fired. -/
theorem snapReach_invariant (filename : String) (s : SnapState)
    (h : SnapReach filename s) :
    (s.request.frame_done = true → s.callbackFired = true) ∧
    (s.bufferFreed = true → s.callbackFired = true) ∧
    (s.returned = true → s.callbackFired = true) := by
  induction h with
  | refl => simp [snapInit]
  | tail hsteps hstep ih =>
    cases hstep with
    | beginOk h => simpa using ih
    | beginFail h => simpa using ih
    | callback bufferSize writeOk hIssued hOnce =>
      refine ⟨fun _ => rfl, fun _ => rfl, fun _ => rfl⟩
    | waitExit hpc hdone =>
      refine ⟨fun _ => ih.1 hdone, fun _ => ih.1 hdone, fun _ => ih.1 hdone⟩

/-- C1: in every execution of a `RenderSnapshot` call interleaved with
the engine's asynchronous readback completion, the pixel buffer is freed
and the call returns only in states where the completion callback has
already fired; no reachable state frees the buffer or returns before the
callback has been observed. -/
theorem renderSnapshot_frees_only_after_callback (filename : String)
    (s : SnapState) (h : SnapReach filename s)
    (hfin : s.bufferFreed = true ∨ s.returned = true) :
    s.callbackFired = true := by
  rcases hfin with hf | hr
  · exact (snapReach_invariant filename s h).2.1 hf
  · exact (snapReach_invariant filename s h).2.2 hr

/-- Witness for C1: a concrete complete run — beginFrame succeeds, the
readback is issued, the callback fires, the wait loop observes the flag,
the buffer is freed — reaches a freed state in which the theorem yields
that the callback fired. -/
theorem renderSnapshot_frees_only_after_callback_witness :
    ({ pc := .done
       readPixelsStarted := true
       callbackFired := true
       request := { frame_done := true, output_filename := "a.png" }
       bufferFreed := true
       returned := true } : SnapState).callbackFired = true := by
  refine renderSnapshot_frees_only_after_callback "a.png" _ ?_ (Or.inl rfl)
  refine Relation.ReflTransGen.head (SnapStep.beginOk _ rfl) ?_
  refine Relation.ReflTransGen.head (SnapStep.callback _ 100 true rfl rfl) ?_
  exact Relation.ReflTransGen.single (SnapStep.waitExit _ rfl rfl)

/-- C3, failing input: on a file whose content parses as a mesh with zero
triangles, `LoadGeometry` resets the mesh shared pointer and then
dereferences it at `mesh->HasTriangleUvs()`, so the zero-triangle branch
faults instead of falling through to the point-cloud path (which here
would even have succeeded). -/
theorem loadGeometry_zero_triangles_null_deref :
    LoadGeometry sampleZeroTriangleFile = Except.error Fault.nullDeref :=
  rfl

/-- Structural facts about the mesh fix-up: vertices and triangles are
untouched, one normal per vertex, and three UVs per triangle. -/
theorem fixupMesh_lengths (m : TriangleMesh) :
    (fixupMesh m).vertices = m.vertices ∧
    (fixupMesh m).triangles = m.triangles ∧
    (fixupMesh m).vertex_normals.length = m.vertices.length ∧
    (fixupMesh m).triangle_uvs.length = 3 * m.triangles.length := by
  simp only [fixupMesh, computeVertexNormals, paintUniformColor]
  split_ifs with h1 h2 h3 <;>
    simp_all [hasTriangleUvs]

/-- When the parsed mesh has no vertex colors, the fix-up paints one
white color per vertex. -/
theorem fixupMesh_colors (m : TriangleMesh) (h : m.vertex_colors = []) :
    (fixupMesh m).vertex_colors =
      List.replicate m.vertices.length ((1 : Rat), (1 : Rat), (1 : Rat)) := by
  simp only [fixupMesh, computeVertexNormals, paintUniformColor]
  split_ifs with h1 h2 h3 <;>
    simp_all [List.map_const']

/-- C4: whenever `LoadGeometry` returns a triangle mesh (mesh parse
succeeded, non-empty triangle list), the returned mesh has one vertex
normal per vertex and three UVs per triangle, and when the parsed mesh
had no vertex colors the returned mesh is painted uniform white. -/
theorem loadGeometry_mesh_postconditions (f : FileContent)
    (m0 m : TriangleMesh)
    (hct : f.containsTriangles = true)
    (hparse : f.meshParse = ParseOutcome.ok m0)
    (hres : LoadGeometry f = Except.ok (some (Geometry3D.triangleMesh m))) :
    m.vertex_normals.length = m.vertices.length ∧
    m.triangle_uvs.length = 3 * m.triangles.length ∧
    (m0.vertex_colors = [] →
      m.vertex_colors = List.replicate m.vertices.length (1, 1, 1)) := by
  rw [LoadGeometry, hct] at hres
  simp only [if_true, hparse] at hres
  split at hres
  · exact absurd hres (by simp)
  · simp only [Except.ok.injEq, Option.some.injEq,
      Geometry3D.triangleMesh.injEq] at hres
    subst hres
    obtain ⟨hv, ht, hn, hu⟩ := fixupMesh_lengths m0
    refine ⟨?_, ?_, fun hc => ?_⟩
    · rw [hn, hv]
    · rw [hu, ht]
    · rw [fixupMesh_colors m0 hc, hv]

/-- Witness for C4 at a concrete one-triangle mesh file. -/
theorem loadGeometry_mesh_postconditions_witness :
    (fixupMesh sampleParsedMesh).vertex_normals.length =
        (fixupMesh sampleParsedMesh).vertices.length ∧
      (fixupMesh sampleParsedMesh).triangle_uvs.length =
        3 * (fixupMesh sampleParsedMesh).triangles.length ∧
      (sampleParsedMesh.vertex_colors = [] →
        (fixupMesh sampleParsedMesh).vertex_colors =
          List.replicate (fixupMesh sampleParsedMesh).vertices.length
            (1, 1, 1)) :=
  loadGeometry_mesh_postconditions sampleMeshFile sampleParsedMesh
    (fixupMesh sampleParsedMesh) rfl rfl rfl

/-- The boolean adjacent-pair check agrees with `List.Chain'` of the
string order. -/
theorem chainLtB_iff : ∀ l, chainLtB l = true ↔
    List.Chain' (fun a b => strLtB a b = true) l
  | [] => by simp [chainLtB]
  | [a] => by simp [chainLtB]
  | a :: b :: rest => by
    simp [chainLtB, List.chain'_cons, chainLtB_iff (b :: rest)]

/-- C5: for every frame index i below 360, the orbit loop computes the
eye (center.x + radius·sin(i·pi/180), center.y + 2·sin(2·i·pi/180),
center.z + radius·cos(i·pi/180)), looks at the center with up (0, 1, 0),
and renders to the filename built from i zero-padded to five digits
under the fixed output directory; the loop produces exactly the 360
filenames out_00000.png … out_00359.png in index order, strictly
increasing with no gaps or reordering. -/
theorem orbit_loop_deterministic {K : Type} [Field K]
    (sine cosine : K → K) (pi : K) (center : K × K × K) (radius : K) :
    (∀ i : Fin 360,
      (orbitFrame sine cosine pi center radius (0, 1, 0) (i : Nat)).eye =
        (center.1 + radius * sine (((i : Nat) : K) * pi / 180),
         center.2.1 + 2 * sine (2 * (((i : Nat) : K) * pi / 180)),
         center.2.2 + radius * cosine (((i : Nat) : K) * pi / 180)) ∧
      (orbitFrame sine cosine pi center radius (0, 1, 0)
        (i : Nat)).lookTarget = center ∧
      (orbitFrame sine cosine pi center radius (0, 1, 0) (i : Nat)).up =
        (0, 1, 0) ∧
      (orbitFrame sine cosine pi center radius (0, 1, 0)
        (i : Nat)).filename =
        "headless_out/out_" ++ pad5 (i : Nat) ++ ".png" ∧
      (pad5 (i : Nat)).length = 5) ∧
    (orbitLoop sine cosine pi center radius).length = 360 ∧
    (∀ i : Fin 360,
      (orbitLoop sine cosine pi center radius)[(i : Nat)]? =
        some (orbitFrame sine cosine pi center radius (0, 1, 0) (i : Nat))) ∧
    List.Chain' (fun a b => strLtB a b = true)
      ((List.range 360).map orbitFilename) := by
  have hlen : ∀ j : Fin 360, (pad5 (j : Nat)).length = 5 := by decide
  refine ⟨fun i => ⟨?_, rfl, rfl, rfl, hlen i⟩, ?_, fun i => ?_,
    (chainLtB_iff _).mp (by decide)⟩
  · simp only [orbitFrame]
    rw [mul_comm (((i : Nat) : K) * pi / 180) 2]
    refine congrArg₂ Prod.mk (by ring) (congrArg₂ Prod.mk (by ring) (by ring))
  · simp [orbitLoop]
  · simp [orbitLoop, List.getElem?_map, List.getElem?_range, i.isLt]
